import Mathlib

/-!
Verification of the piano-trainer repository (two source files:
`src/components/KVProvider/KVProvider.tsx` and
`src/components/Keyboard/Keyboard.tsx`) against its natural-language
specification.

The development shallowly embeds the two components:

* `KVProvider.tsx`: the settings key type, the tauri key-value store
  (in-memory cache plus on-disk file, with `get`/`set`/`save`/`load`),
  the provider state, `saveSetting`, `loadSettingIntoState`, and the
  mount effect that loads every available setting and clears the
  loading flag (also on failure).

* `Keyboard.tsx`: the active-note mapping (a JavaScript object keyed by
  note number), the `midi_message` listener, the listening guard of
  `onLoadCallback`, the `playNote` handler wired to the trainer
  context, and the `activeNotes` list handed to the `Piano` widget.

JavaScript values stored in the settings file are either strings or
booleans; they are embedded as `StoredValue`, with JavaScript's
truthiness, `String(...)` and `Boolean(...)` coercions made explicit.
-/

set_option autoImplicit false

namespace PianoTrainer

/-- The settings keys of `PTSettingsKeyType`:
`piano-sound`, `show-keyboard`, `mute-sound`. -/
inductive PTSettingsKeyType where
  | pianoSound
  | showKeyboard
  | muteSound
  deriving DecidableEq, Repr

/-- A value held in the settings store: the source annotates
`store.get` with `string | boolean | null`; absence (`null`) is
`Option.none` around this type. -/
inductive StoredValue where
  | str (s : String)
  | bool (b : Bool)
  deriving DecidableEq, Repr

/-- JavaScript truthiness of a present stored value:
`false` and the empty string are falsy. -/
def truthySome : StoredValue → Bool
  | .str s => !(s == "")
  | .bool b => b

/-- JavaScript truthiness of a possibly absent stored value:
`null` (absence) is falsy; this is the `!value` test of
`loadSettingIntoState`. -/
def truthy : Option StoredValue → Bool
  | none => false
  | some v => truthySome v

/-- JavaScript `String(value)` on a stored value. -/
def jsString : StoredValue → String
  | .str s => s
  | .bool b => if b then "true" else "false"

/-- JavaScript `Boolean(value)` on a stored value: a string is truthy
iff non-empty. -/
def jsBoolean : StoredValue → Bool
  | .str s => !(s == "")
  | .bool b => b

/-- The tauri-plugin-store `Store`: `get`/`set` act on the in-memory
cache, `save` flushes the cache to disk, `load` reads the disk file
into the cache. -/
structure Store where
  cache : PTSettingsKeyType → Option StoredValue
  disk : PTSettingsKeyType → Option StoredValue

namespace Store

/-- `store.get(key)` reads the in-memory cache. -/
def get (st : Store) (key : PTSettingsKeyType) : Option StoredValue :=
  st.cache key

/-- `store.set(key, value)` updates the in-memory cache. -/
def set (st : Store) (key : PTSettingsKeyType) (value : StoredValue) : Store :=
  { st with cache := fun k => if k = key then some value else st.cache k }

/-- `store.save()` flushes the cache to the on-disk file. -/
def save (st : Store) : Store :=
  { st with disk := st.cache }

/-- `store.load()` reads the on-disk file into the cache. -/
def load (st : Store) : Store :=
  { st with cache := st.disk }

end Store

/-- A store whose cache and disk are both empty. -/
def emptyStore : Store :=
  { cache := fun _ => none, disk := fun _ => none }

/-- A freshly constructed `new Store(".settings.dat")` over a given
on-disk file: nothing is cached until `load` runs. -/
def freshStore (disk : PTSettingsKeyType → Option StoredValue) : Store :=
  { cache := fun _ => none, disk := disk }

/-- The in-memory state of `KVProvider`: the loading flag and the three
tracked preferences. -/
structure KVState where
  isLoading : Bool
  pianoSound : String
  showKeyboard : Bool
  muteSound : Bool
  deriving DecidableEq, Repr

/-- The `useState` defaults of `KVProvider`. -/
def initialState : KVState :=
  { isLoading := true
    pianoSound := "acoustic_grand_piano"
    showKeyboard := true
    muteSound := false }

/-- Read the state field tracking a given key, tagged with its type. -/
def stateGet (s : KVState) : PTSettingsKeyType → StoredValue
  | .pianoSound => .str s.pianoSound
  | .showKeyboard => .bool s.showKeyboard
  | .muteSound => .bool s.muteSound

/-- `saveSetting` of `KVProvider.tsx` (lines 46-53): a no-op while
`isLoading`, otherwise `store.set(key, value)` followed by
`store.save()`. -/
def saveSetting (isLoading : Bool) (st : Store) (key : PTSettingsKeyType)
    (value : StoredValue) : Store :=
  if isLoading then st else (st.set key value).save

/-- `loadSettingIntoState` of `KVProvider.tsx` (lines 70-90): read the
key from the store, return unchanged on a falsy value (`null`, `false`,
`""`), otherwise dispatch on the key with the source's coercions
(`String(value)` for piano-sound, `Boolean(value)` for the two boolean
keys). -/
def loadSettingIntoState (st : Store) (key : PTSettingsKeyType)
    (s : KVState) : KVState :=
  match st.get key with
  | none => s
  | some value =>
    if truthySome value = false then s
    else
      match key with
      | .pianoSound => { s with pianoSound := jsString value }
      | .showKeyboard => { s with showKeyboard := jsBoolean value }
      | .muteSound => { s with muteSound := jsBoolean value }

/-- The type-specific coercion `loadSettingIntoState` applies on a hit,
tagged with the type it lands in: `String(value)` for piano-sound,
`Boolean(value)` for show-keyboard and mute-sound. -/
def settingCoerce : PTSettingsKeyType → StoredValue → StoredValue
  | .pianoSound, v => .str (jsString v)
  | .showKeyboard, v => .bool (jsBoolean v)
  | .muteSound, v => .bool (jsBoolean v)

/-- Whether a stored value has the type the spec assigns to a key:
string for piano-sound, boolean for show-keyboard and mute-sound. -/
def keyTypeOk : PTSettingsKeyType → StoredValue → Bool
  | .pianoSound, .str _ => true
  | .showKeyboard, .bool _ => true
  | .muteSound, .bool _ => true
  | _, _ => false

/-- Modelled from the spec: `AVAILABLE_SETTINGS` is imported from
`src/utils`, which is not part of the two provided source files; the
spec fixes the enumerated set of preference keys as `piano-sound`,
`show-keyboard` and `mute-sound`. -/
def AVAILABLE_SETTINGS : List PTSettingsKeyType :=
  [.pianoSound, .showKeyboard, .muteSound]

/-- The loop of the mount effect: `loadSettingIntoState` for every key
of `AVAILABLE_SETTINGS`, in order. -/
def loadAllSettings (st : Store) (s : KVState) : KVState :=
  AVAILABLE_SETTINGS.foldl (fun s key => loadSettingIntoState st key s) s

/-- Result of the mount effect of `KVProvider.tsx` (lines 96-106). -/
structure LoadResult where
  store : Store
  state : KVState
  loggedError : Bool

/-- The mount effect (lines 96-106): `store.load()` then, on success,
`loadSettingIntoState` for each available key; on failure the error is
logged (`catch`) and the state is untouched; `finally` clears
`isLoading` in both cases. `ok` is whether `store.load()` resolves. -/
def runLoad (st : Store) (ok : Bool) (s : KVState) : LoadResult :=
  if ok then
    let st2 := st.load
    { store := st2
      state := { loadAllSettings st2 s with isLoading := false }
      loggedError := false }
  else
    { store := st
      state := { s with isLoading := false }
      loggedError := true }

/-- The render of `KVProvider` (line 122): children are rendered iff
`!isLoading`. -/
def rendersChildren (s : KVState) : Bool :=
  !s.isLoading

/-!
## Keyboard.tsx
-/

/-- The `activeNotes` state of `Keyboard.tsx`: a JavaScript object
mapping note numbers to booleans, embedded as an association list in
property order. -/
def ActiveNotes := List (Nat × Bool)

/-- Lookup `an[note]`: the object holds at most one entry per key, so
the first match is the value; `none` is an absent property
(`undefined`). -/
def getNote : ActiveNotes → Nat → Option Bool
  | [], _ => none
  | (k, b) :: rest, note => if k = note then some b else getNote rest note

/-- The object spread `{...an, [note]: v}`: an existing key keeps its
position with the new value, a new key is appended. (JavaScript
enumerates integer-like keys in ascending numeric order regardless;
every property of the mapping proved here is order-independent.) -/
def setNote : ActiveNotes → Nat → Bool → ActiveNotes
  | [], note, v => [(note, v)]
  | (k, b) :: rest, note, v =>
    if k = note then (k, v) :: rest else (k, b) :: setNote rest note v

/-- The `midi_message` listener body of `Keyboard.tsx` (lines 33-50):
destructure `[command, note] = payload.message`, mark the note active
on command 144 and inactive on command 128, leave the mapping alone
otherwise. A message shorter than two bytes leaves every note-number
key untouched (in JavaScript a note-on with a missing note byte would
write the non-numeric object key "undefined", outside the note-number
domain embedded here). -/
def handleMidiEvent (message : List Nat) (an : ActiveNotes) : ActiveNotes :=
  let command := message[0]?
  let note := message[1]?
  let an1 :=
    if command = some 144 then
      match note with
      | some n => setNote an n true
      | none => an
    else an
  if command = some 128 then
    match note with
    | some n => setNote an1 n false
    | none => an1
  else an1

/-- The component state relevant to the listening guard of
`Keyboard.tsx`: the `isListening` flag, plus counters of the external
effects `invoke("open_midi_connection", ...)` and
`listen("midi_message", ...)` so that "no second connection, no second
subscription" is expressible. -/
structure KeyboardState where
  isListening : Bool
  midiConnections : Nat
  subscriptions : Nat
  deriving DecidableEq, Repr

/-- `onLoadCallback` of `Keyboard.tsx` (lines 29-54): return at once if
already listening; otherwise open the MIDI connection, subscribe to
`midi_message`, and set the listening flag. -/
def onLoadCallback (s : KeyboardState) : KeyboardState :=
  if s.isListening then s
  else
    { isListening := true
      midiConnections := s.midiConnections + 1
      subscriptions := s.subscriptions + 1 }

/-- Effects of one call of the `playNote` handler passed to `Piano`
(lines 72-78): how many times the `setNoteCounter` callback of the
trainer context was invoked (each call applies `nc => nc + 1`), and
which notes were forwarded to the sound renderer. -/
structure PlayNoteEffect where
  counterIncrements : Nat
  forwardedToRenderer : List Nat
  deriving DecidableEq, Repr

/-- The `playNote` handler (lines 72-78): if the played note equals
`nextTargetNote` from the trainer context, invoke the optional
`setNoteCounter` callback (optional chaining: skipped when the context
supplies none), then always forward the note to the sound renderer's
`playNote`. `nextTargetNote` is `Option Nat` because the context may
not supply it. -/
def handlePlayNote (nextTargetNote : Option Nat) (hasSetNoteCounter : Bool)
    (midiNumber : Nat) : PlayNoteEffect :=
  { counterIncrements :=
      if nextTargetNote = some midiNumber then
        if hasSetNoteCounter then 1 else 0
      else 0
    forwardedToRenderer := [midiNumber] }

/-- The `activeNotes` prop handed to `Piano` (lines 91-93):
`Object.keys(activeNotes).filter(v => activeNotes[v]).map(Number)`.
Keys enumerate as the entries' keys; the filter keeps a key iff its
looked-up value is truthy (an absent key would give `undefined`, hence
`false`); `Number` is the identity on the embedded numeric keys. -/
def renderedActiveNotes (an : ActiveNotes) : List Nat :=
  ((an.map Prod.fst).filter fun v => (getNote an v).getD false)

/-!
## Lemmas about the active-note mapping
-/

theorem getNote_setNote_self (an : ActiveNotes) (n : Nat) (v : Bool) :
    getNote (setNote an n v) n = some v := by
  induction an with
  | nil => simp [setNote, getNote]
  | cons head tail ih =>
    obtain ⟨k, b⟩ := head
    by_cases h : k = n <;> simp [setNote, getNote, h, ih]

theorem getNote_setNote_other {m n : Nat} (h : m ≠ n) (an : ActiveNotes)
    (v : Bool) : getNote (setNote an n v) m = getNote an m := by
  induction an with
  | nil => simp [setNote, getNote, Ne.symm h]
  | cons head tail ih =>
    obtain ⟨k, b⟩ := head
    by_cases hk : k = n
    · subst hk
      simp [setNote, getNote, Ne.symm h]
    · simp [setNote, getNote, hk, ih]

theorem getNote_mem_keys {an : ActiveNotes} {n : Nat} {b : Bool}
    (h : getNote an n = some b) : n ∈ an.map Prod.fst := by
  induction an with
  | nil => simp [getNote] at h
  | cons head tail ih =>
    obtain ⟨k, v⟩ := head
    by_cases hk : k = n
    · simp [hk]
    · simp [getNote, hk] at h
      simp [ih h]

theorem mem_renderedActiveNotes (an : ActiveNotes) (n : Nat) :
    n ∈ renderedActiveNotes an ↔ getNote an n = some true := by
  unfold renderedActiveNotes
  rw [List.mem_filter]
  constructor
  · rintro ⟨-, hp⟩
    cases hg : getNote an n with
    | none => rw [hg] at hp; simp at hp
    | some b => rw [hg] at hp; simp at hp; rw [hp]
  · intro hg
    exact ⟨getNote_mem_keys hg, by simp [hg]⟩

/-!
## Theorems about Keyboard.tsx
-/

/-- Claim C3: after the listener processes a message with command byte
144 and note byte N (any trailing bytes), the mapping holds N → true;
after it then processes a message with command byte 128 and note byte
N, the mapping holds N → false. -/
theorem note_on_then_note_off (n : Nat) (r1 r2 : List Nat) (an : ActiveNotes) :
    getNote (handleMidiEvent (144 :: n :: r1) an) n = some true ∧
    getNote (handleMidiEvent (128 :: n :: r2)
      (handleMidiEvent (144 :: n :: r1) an)) n = some false := by
  have h1 : handleMidiEvent (144 :: n :: r1) an = setNote an n true := by
    simp [handleMidiEvent]
  have h2 : handleMidiEvent (128 :: n :: r2) (setNote an n true)
      = setNote (setNote an n true) n false := by
    simp [handleMidiEvent]
  rw [h1, h2]
  exact ⟨getNote_setNote_self an n true,
    getNote_setNote_self (setNote an n true) n false⟩

/-- Claim C4: with target note 60 and the counter setter supplied, the
play handler invoked with note 60 calls the counter-increment callback
exactly once and forwards the note to the renderer; with note 61 it
calls the callback zero times and still forwards the note. -/
theorem playNote_target_counter :
    handlePlayNote (some 60) true 60
        = { counterIncrements := 1, forwardedToRenderer := [60] } ∧
      handlePlayNote (some 60) true 61
        = { counterIncrements := 0, forwardedToRenderer := [61] } := by
  decide

/-- Claim C5: a note is in the rendered active list iff its entry in
the mapping is `true` (a `false` entry behaves as absence), and on the
mapping 60 → true, 62 → false, 64 → true the rendered set is exactly
the pair of 60 and 64. -/
theorem rendered_active_set (an : ActiveNotes) (n : Nat) :
    (n ∈ renderedActiveNotes an ↔ getNote an n = some true) ∧
    (renderedActiveNotes [(60, true), (62, false), (64, true)]).toFinset
      = ({60, 64} : Finset Nat) :=
  ⟨mem_renderedActiveNotes an n, by decide⟩

/-- Claim C6: invoking `onLoadCallback` while the listening flag is set
leaves the component state unchanged: no second MIDI connection is
opened and no second subscription is registered. -/
theorem onLoadCallback_idempotent_guard (s : KeyboardState)
    (h : s.isListening = true) :
    onLoadCallback s = s ∧
    (onLoadCallback s).midiConnections = s.midiConnections ∧
    (onLoadCallback s).subscriptions = s.subscriptions := by
  have he : onLoadCallback s = s := by simp [onLoadCallback, h]
  exact ⟨he, by rw [he], by rw [he]⟩

/-- Witness for C6 at a concrete already-listening state. -/
theorem onLoadCallback_idempotent_guard_witness :
    onLoadCallback { isListening := true, midiConnections := 1, subscriptions := 1 }
        = { isListening := true, midiConnections := 1, subscriptions := 1 } ∧
      (onLoadCallback { isListening := true, midiConnections := 1, subscriptions := 1 }).midiConnections = 1 ∧
      (onLoadCallback { isListening := true, midiConnections := 1, subscriptions := 1 }).subscriptions = 1 :=
  onLoadCallback_idempotent_guard
    { isListening := true, midiConnections := 1, subscriptions := 1 } rfl

/-- Claim C7: a message whose command byte is neither 144 nor 128
leaves the active-note mapping completely unchanged. -/
theorem midi_unknown_command_ignored (message : List Nat) (an : ActiveNotes)
    (c : Nat) (h0 : message[0]? = some c) (h144 : c ≠ 144)
    (h128 : c ≠ 128) : handleMidiEvent message an = an := by
  simp [handleMidiEvent, h0, h144, h128]

/-- Witness for C7 at the concrete aftertouch-style command byte 160. -/
theorem midi_unknown_command_ignored_witness :
    handleMidiEvent [160, 60] [(60, true)] = [(60, true)] :=
  midi_unknown_command_ignored [160, 60] [(60, true)] 160 rfl
    (by decide) (by decide)

/-- Claim C10: processing one message changes the mapping at most at
the key given by the note byte (message index 1), and the result
depends only on message indices 0 and 1 (velocity and any further
bytes are irrelevant). -/
theorem midi_event_frame (message m1 m2 : List Nat) (an : ActiveNotes)
    (m : Nat) :
    (message[1]? ≠ some m →
      getNote (handleMidiEvent message an) m = getNote an m) ∧
    (m1[0]? = m2[0]? → m1[1]? = m2[1]? →
      handleMidiEvent m1 an = handleMidiEvent m2 an) := by
  constructor
  · intro hm
    cases h1 : message[1]? with
    | none => simp [handleMidiEvent, h1, ite_self]
    | some n =>
      have hnm : m ≠ n := by
        intro e
        rw [e] at hm
        exact hm h1
      by_cases hc1 : message[0]? = some 144 <;>
        by_cases hc2 : message[0]? = some 128 <;>
          simp [handleMidiEvent, h1, hc1, hc2, getNote_setNote_other hnm]
  · intro h0 h1
    unfold handleMidiEvent
    rw [h0, h1]

/-- Witness for C10: a note-on for 60 leaves note 61 alone, and a
trailing velocity byte does not affect the result. -/
theorem midi_event_frame_witness :
    getNote (handleMidiEvent [144, 60] [(61, true)]) 61
        = getNote [(61, true)] 61 ∧
      handleMidiEvent [144, 60, 127] [] = handleMidiEvent [144, 60, 1] [] :=
  ⟨(midi_event_frame [144, 60] [] [] [(61, true)] 61).1 (by decide),
   (midi_event_frame [] [144, 60, 127] [144, 60, 1] [] 0).2 rfl rfl⟩

/-!
## Lemmas about KVProvider.tsx
-/

theorem stateGet_set_isLoading (s : KVState) (b : Bool)
    (key : PTSettingsKeyType) :
    stateGet { s with isLoading := b } key = stateGet s key := by
  cases key <;> rfl

theorem loadSettingIntoState_frame (st : Store) (key k2 : PTSettingsKeyType)
    (s : KVState) (h : key ≠ k2) :
    stateGet (loadSettingIntoState st key s) k2 = stateGet s k2 := by
  unfold loadSettingIntoState
  split
  · rfl
  · split
    · rfl
    · split <;> cases k2 <;> simp_all [stateGet]

theorem stateGet_loadSettingIntoState_self (st : Store)
    (key : PTSettingsKeyType) (s : KVState) (v : StoredValue)
    (hv : st.get key = some v) (ht : truthySome v = true) :
    stateGet (loadSettingIntoState st key s) key = settingCoerce key v := by
  cases key <;> simp [loadSettingIntoState, hv, ht, stateGet, settingCoerce]

theorem loadAllSettings_stateGet (st : Store) (s : KVState)
    (key : PTSettingsKeyType) (v : StoredValue)
    (hv : st.get key = some v) (ht : truthySome v = true) :
    stateGet (loadAllSettings st s) key = settingCoerce key v := by
  unfold loadAllSettings AVAILABLE_SETTINGS
  simp only [List.foldl]
  cases key with
  | pianoSound =>
    rw [loadSettingIntoState_frame st .muteSound .pianoSound _ (by decide),
      loadSettingIntoState_frame st .showKeyboard .pianoSound _ (by decide)]
    exact stateGet_loadSettingIntoState_self st _ s v hv ht
  | showKeyboard =>
    rw [loadSettingIntoState_frame st .muteSound .showKeyboard _ (by decide)]
    exact stateGet_loadSettingIntoState_self st _ _ v hv ht
  | muteSound =>
    exact stateGet_loadSettingIntoState_self st _ _ v hv ht

/-!
## Theorems about KVProvider.tsx
-/

/-- Claim C2: while the initial load is in flight, `saveSetting` leaves
the store untouched (neither written nor flushed, so no read can see
the value); once loading is over it writes the value under the key and
flushes it to disk. -/
theorem saveSetting_noop_while_loading (st : Store) (key : PTSettingsKeyType)
    (v : StoredValue) :
    saveSetting true st key v = st ∧
    (saveSetting false st key v).get key = some v ∧
    (saveSetting false st key v).disk key = some v := by
  refine ⟨rfl, ?_, ?_⟩ <;> simp [saveSetting, Store.get, Store.set, Store.save]

/-- Claim C8: `loadSettingIntoState` skips a key whose stored value is
absent or falsy, leaving the state unchanged; otherwise it maps the
stored value into the key's state field through the key's coercion. -/
theorem loadSetting_skip_or_coerce (st : Store) (key : PTSettingsKeyType)
    (s : KVState) :
    (truthy (st.get key) = false → loadSettingIntoState st key s = s) ∧
    (∀ v, st.get key = some v → truthySome v = true →
      stateGet (loadSettingIntoState st key s) key = settingCoerce key v) := by
  constructor
  · intro h
    unfold loadSettingIntoState
    cases hv : st.get key with
    | none => simp
    | some v =>
      rw [hv] at h
      simp only [truthy] at h
      simp [h]
  · intro v hv ht
    exact stateGet_loadSettingIntoState_self st key s v hv ht

/-- Witness for C8: an absent piano-sound is skipped; a stored
show-keyboard `true` is coerced into the boolean state field. -/
theorem loadSetting_skip_or_coerce_witness :
    loadSettingIntoState emptyStore .pianoSound initialState = initialState ∧
    stateGet
        (loadSettingIntoState (emptyStore.set .showKeyboard (.bool true))
          .showKeyboard initialState) .showKeyboard
      = settingCoerce .showKeyboard (.bool true) :=
  ⟨(loadSetting_skip_or_coerce emptyStore .pianoSound initialState).1
      (by decide),
   (loadSetting_skip_or_coerce (emptyStore.set .showKeyboard (.bool true))
      .showKeyboard initialState).2 (.bool true) (by decide) (by decide)⟩

/-- Claim C9: a failed initial load logs the error, leaves every
preference at its default, and still clears the loading flag, so child
rendering is unblocked exactly as on a successful load. -/
theorem load_failure_defaults (st st2 : Store) :
    (runLoad st false initialState).state
        = { initialState with isLoading := false } ∧
      (runLoad st false initialState).loggedError = true ∧
      rendersChildren (runLoad st false initialState).state = true ∧
      rendersChildren (runLoad st2 true initialState).state = true :=
  ⟨rfl, rfl, rfl, rfl⟩

/-- Counterexample to claim C1 as stated: save show-keyboard := false
after load has completed, then load the resulting disk file with a
fresh store. The stored `false` is falsy, so `loadSettingIntoState`
skips the key and the in-memory value stays at the default `true`; the
saved value is not retrieved. -/
theorem save_false_roundtrip_counterexample :
    ¬ stateGet
        (runLoad
          (freshStore
            ((saveSetting false emptyStore .showKeyboard (.bool false)).disk))
          true initialState).state .showKeyboard
      = .bool false := by
  decide

/-- Claim C1 amended: for every supported key and every truthy value of
that key's type (a non-empty string for piano-sound, `true` for the
boolean keys), a value saved after load has completed is retrieved by a
fresh load of the store with the same value and type; a falsy value
(`false`, the empty string) is skipped by the load's truthiness check
and the in-memory default is kept instead. -/
theorem save_roundtrip_truthy (st : Store) (key : PTSettingsKeyType)
    (v : StoredValue) (hty : keyTypeOk key v = true)
    (ht : truthySome v = true) :
    stateGet
        (runLoad (freshStore ((saveSetting false st key v).disk)) true
          initialState).state key
      = v := by
  have hget :
      ((freshStore ((saveSetting false st key v).disk)).load).get key
        = some v := by
    simp [saveSetting, Store.set, Store.save, Store.load, Store.get, freshStore]
  show stateGet
      { loadAllSettings ((freshStore ((saveSetting false st key v).disk)).load)
          initialState with isLoading := false } key = v
  rw [stateGet_set_isLoading]
  rw [loadAllSettings_stateGet _ _ key v hget ht]
  cases key <;> cases v <;>
    simp_all [keyTypeOk, settingCoerce, jsString, jsBoolean, truthySome]

/-- Witness for the amended C1 at the concrete key piano-sound and the
truthy value "organ". -/
theorem save_roundtrip_truthy_witness :
    stateGet
        (runLoad
          (freshStore
            ((saveSetting false emptyStore .pianoSound (.str "organ")).disk))
          true initialState).state .pianoSound
      = .str "organ" :=
  save_roundtrip_truthy emptyStore .pianoSound (.str "organ") (by decide)
    (by decide)

end PianoTrainer
